import Mathlib

/-!
Verification of the Fashion Commerce API backend (`main.py`, `schemas.py`).

The Python source is shallowly embedded: Python floats are modelled as exact
rationals (ℚ), Python `int(...)` truncation and `round(x, 2)` (round half to
even) are modelled explicitly, loosely-typed cart payload dictionaries become
`RawItem` records with optional fields, pydantic validation of the `Order` /
`CartItem` schemas becomes `Except`-valued validators, and the MongoDB query
dictionary built by `list_products` becomes the `ProductQuery` record.
Abstractions: `EmailStr` syntax checking and the checkout payload's raw
shipping-address dictionary are not modelled (no claim depends on them; the
payload carries an already well-formed `Address`), and the `$regex` clause is
modelled as case-insensitive literal substring match.
-/

namespace FashionCommerce

attribute [local semireducible] Rat.add Rat.mul Rat.inv Rat.sub Rat.ofScientific

/-- Python `int(q)` on a numeric value: truncation toward zero. -/
def pyInt (q : ℚ) : ℤ := Int.tdiv q.num (q.den : ℤ)

/-- Round a rational to the nearest integer, ties to even
(the rounding used by Python's `round`). -/
def roundHalfEven (q : ℚ) : ℤ :=
  let f : ℤ := ⌊q⌋
  let r : ℚ := q - (f : ℚ)
  if r < 1 / 2 then f
  else if 1 / 2 < r then f + 1
  else if f % 2 = 0 then f else f + 1

/-- Python `round(q, 2)`: round to two decimal places, ties to even. -/
def round2 (q : ℚ) : ℚ := (roundHalfEven (q * 100) : ℚ) / 100

/-- Python truthiness of an optional string (`if s:`):
`None` and the empty string are falsy. -/
def pyTruthyStr : Option String → Bool
  | none => false
  | some s => !s.isEmpty

-- ---------------------------------------------------------------------------
-- schemas.py
-- ---------------------------------------------------------------------------

/-- `Order.status` literal values (schemas.py, `Order.status`). -/
inductive OrderStatus
  | pending | paid | shipped | delivered | cancelled
  deriving DecidableEq, Repr

/-- `Order.payment_method` literal values (schemas.py, `Order.payment_method`). -/
inductive PaymentMethod
  | stripe | cod
  deriving DecidableEq, Repr

/-- `Order.payment_status` literal values (schemas.py, `Order.payment_status`). -/
inductive PaymentStatus
  | pending | requires_action | paid | failed
  deriving DecidableEq, Repr

/-- `Address` (schemas.py). -/
structure Address where
  full_name : String
  line1 : String
  line2 : Option String := none
  city : String
  state : String
  postal_code : String
  country : String := "US"
  phone : Option String := none
  deriving DecidableEq, Repr

/-- `ProductVariant` (schemas.py). -/
structure ProductVariant where
  size : Option String := none
  color : Option String := none
  stock : ℤ := 0
  sku : Option String := none
  deriving DecidableEq, Repr

/-- A validated `CartItem` (schemas.py): `quantity : int ≥ 1`, `price : float ≥ 0`. -/
structure CartItem where
  product_id : String
  quantity : ℤ
  price : ℚ
  title : Option String := none
  image : Option String := none
  deriving DecidableEq, Repr

/-- A raw cart-item dictionary as sent to `POST /checkout`
(`items: List[Dict[str, Any]]`): every field may be absent; numeric fields
carry an arbitrary rational (a Python int or float). -/
structure RawItem where
  product_id : Option String := none
  quantity : Option ℚ := none
  price : Option ℚ := none
  title : Option String := none
  image : Option String := none
  deriving DecidableEq, Repr

/-- Pydantic validation of one raw item against the `CartItem` schema:
`product_id` required; `quantity` a required integer with `ge=1`
(a fractional float is rejected, never truncated); `price` a required
float with `ge=0`. -/
def validateCartItem (i : RawItem) : Except String CartItem :=
  match i.product_id with
  | none => .error "product_id: field required"
  | some pid =>
    match i.quantity with
    | none => .error "quantity: field required"
    | some q =>
      if q.den ≠ 1 then .error "quantity: value is not a valid integer"
      else if q.num < 1 then .error "quantity: must be >= 1"
      else
        match i.price with
        | none => .error "price: field required"
        | some pr =>
          if pr < 0 then .error "price: must be >= 0"
          else .ok { product_id := pid, quantity := q.num, price := pr,
                     title := i.title, image := i.image }

/-- Pydantic validation of the whole `items` list: every element must
validate, otherwise the `Order` construction raises a `ValidationError`. -/
def validateItems : List RawItem → Except String (List CartItem)
  | [] => .ok []
  | i :: rest =>
    match validateCartItem i with
    | .error e => .error e
    | .ok c =>
      match validateItems rest with
      | .error e => .error e
      | .ok cs => .ok (c :: cs)

/-- A validated `Order` document (schemas.py). -/
structure Order where
  user_id : Option String
  items : List CartItem
  subtotal : ℚ
  shipping : ℚ
  total : ℚ
  status : OrderStatus
  payment_method : PaymentMethod
  payment_status : PaymentStatus
  transaction_id : Option String
  shipping_address : Address
  email : Option String
  deriving DecidableEq, Repr

/-- Pydantic validation of `payment_method` against
`Literal["stripe", "cod"]`. -/
def parsePaymentMethod : String → Except String PaymentMethod
  | "stripe" => .ok PaymentMethod.stripe
  | "cod" => .ok PaymentMethod.cod
  | _ => .error "payment_method: unexpected value"

/-- Constructing an `Order` as `checkout` does (main.py lines 201-210):
pydantic validates the items list, `subtotal ge=0`, `total ge=0` and the
`payment_method` literal; `status` and `payment_status` are never passed,
so they take their schema defaults `pending` and `pending`. -/
def mkOrder (user_id : Option String) (rawItems : List RawItem)
    (subtotal shipping total : ℚ) (payment_method : String)
    (shipping_address : Address) (email : Option String) :
    Except String Order :=
  match validateItems rawItems with
  | .error e => .error e
  | .ok items =>
    if subtotal < 0 then .error "subtotal: must be >= 0"
    else if total < 0 then .error "total: must be >= 0"
    else
      match parsePaymentMethod payment_method with
      | .error e => .error e
      | .ok pm =>
        .ok { user_id := user_id, items := items, subtotal := subtotal,
              shipping := shipping, total := total,
              status := OrderStatus.pending, payment_method := pm,
              payment_status := PaymentStatus.pending,
              transaction_id := none,
              shipping_address := shipping_address, email := email }

-- ---------------------------------------------------------------------------
-- main.py: POST /checkout
-- ---------------------------------------------------------------------------

/-- `CheckoutPayload` (main.py): `items` loosely typed, `payment_method`
an arbitrary string ("stripe or cod" only by comment). -/
structure CheckoutPayload where
  items : List RawItem
  email : Option String := none
  shipping_address : Address
  payment_method : String
  deriving DecidableEq, Repr

/-- The payment-intent stub dictionary returned by `checkout`
(main.py lines 214-219); `client_secret = none` models the key being absent. -/
structure PaymentStub where
  method : String
  status : String
  client_secret : Option String := none
  deriving DecidableEq, Repr

/-- The error raised by `checkout`: an explicit `HTTPException` or a
pydantic `ValidationError` escaping the `Order(...)` construction. -/
inductive CheckoutErr
  | http (status : ℕ) (detail : String)
  | validation (msg : String)
  deriving DecidableEq, Repr

/-- The successful response of `POST /checkout` together with the order
document that was persisted to produce it. -/
structure CheckoutResult where
  order : Order
  order_id : String
  total : ℚ
  payment : PaymentStub
  deriving DecidableEq, Repr

/-- One term of the subtotal sum (main.py line 197):
`float(i.get("price", 0)) * int(i.get("quantity", 1))`. -/
def itemTerm (i : RawItem) : ℚ := i.price.getD 0 * (pyInt (i.quantity.getD 1) : ℚ)

/-- `POST /checkout` (main.py lines 193-221). `newId` is the store-assigned
identifier `str(create_document("order", order))`; the insert happens only
after the `Order(...)` construction validated, so an error result means no
document was written. -/
def checkout (newId : String) (payload : CheckoutPayload) :
    Except CheckoutErr CheckoutResult :=
  if payload.items.isEmpty then
    .error (CheckoutErr.http 400 "No items")
  else
    let subtotal : ℚ := (payload.items.map itemTerm).sum
    let shipping : ℚ := 0
    let total : ℚ := round2 (subtotal + shipping)
    match mkOrder none payload.items subtotal shipping total
        payload.payment_method payload.shipping_address payload.email with
    | .error e => .error (CheckoutErr.validation e)
    | .ok order =>
      let order_id := newId
      let payment : PaymentStub :=
        if payload.payment_method = "stripe" then
          { method := payload.payment_method, status := "requires_action",
            client_secret := some ("cs_test_" ++ order_id.take 8) }
        else
          { method := payload.payment_method, status := "pending" }
      .ok { order := order, order_id := order_id, total := total,
            payment := payment }

/-- The order documents written to the store by one `checkout` request:
`create_document` runs exactly once, after validation, on the success path. -/
def ordersWritten (newId : String) (payload : CheckoutPayload) : List Order :=
  match checkout newId payload with
  | .ok r => [r.order]
  | .error _ => []

/-- A postcondition holding on the success value of an `Except`. -/
def ExceptHolds (P : α → Prop) : Except ε α → Prop
  | .ok a => P a
  | .error _ => True

-- ---------------------------------------------------------------------------
-- main.py: GET /products (catalog query builder)
-- ---------------------------------------------------------------------------

/-- The optional query parameters of `GET /products` (main.py line 107);
`some ""` models a parameter supplied as an empty string. -/
structure ListParams where
  q : Option String := none
  category : Option String := none
  size : Option String := none
  color : Option String := none
  min_price : Option ℚ := none
  max_price : Option ℚ := none
  deriving DecidableEq, Repr

/-- The `price_filter` sub-dictionary (main.py lines 115-119):
optional `$gte` and `$lte` keys. -/
structure PriceFilter where
  gte : Option ℚ := none
  lte : Option ℚ := none
  deriving DecidableEq, Repr

/-- The MongoDB query dictionary built by `list_products`
(main.py lines 110-125), one field per possible key:
`is_active`, `title` (`$regex` with `$options: "i"`), `category`,
`price`, `variants.size`, `variants.color`. `none` models an absent key. -/
structure ProductQuery where
  is_active : Bool
  title_regex : Option String := none
  category : Option String := none
  price : Option PriceFilter := none
  variants_size : Option String := none
  variants_color : Option String := none
  deriving DecidableEq, Repr

/-- The query construction of `list_products` (main.py lines 110-125),
one record update per Python statement. String parameters are tested for
truthiness (`if q:`), price bounds against `None` (`if min_price is not
None:`), and the price filter is attached only if non-empty
(`if price_filter:`). -/
def build_query (p : ListParams) : ProductQuery :=
  let query : ProductQuery := { is_active := true }
  let query := if pyTruthyStr p.q then { query with title_regex := p.q } else query
  let query := if pyTruthyStr p.category then { query with category := p.category } else query
  let price_filter : PriceFilter := {}
  let price_filter :=
    match p.min_price with
    | some m => { price_filter with gte := some m }
    | none => price_filter
  let price_filter :=
    match p.max_price with
    | some m => { price_filter with lte := some m }
    | none => price_filter
  let query :=
    if price_filter.gte.isSome || price_filter.lte.isSome then
      { query with price := some price_filter }
    else query
  let query := if pyTruthyStr p.size then { query with variants_size := p.size } else query
  let query := if pyTruthyStr p.color then { query with variants_color := p.color } else query
  query

/-- Is `needle` a leading block of `hay`? -/
def leadsWith : List Char → List Char → Bool
  | [], _ => true
  | _ :: _, [] => false
  | a :: as, b :: bs => a == b && leadsWith as bs

/-- Does `hay` contain `needle` as a contiguous block? -/
def containsSeq (needle : List Char) : List Char → Bool
  | [] => needle.isEmpty
  | hay@(_ :: rest) => leadsWith needle hay || containsSeq needle rest

/-- A product document as the catalog query sees it. -/
structure CatalogDoc where
  title : String
  category : String
  price : ℚ
  variants : List ProductVariant
  is_active : Bool
  deriving DecidableEq, Repr

/-- Evaluation of the price range clause by the store: `$gte` is a
lower-inclusive bound, `$lte` an upper-inclusive bound. -/
def PriceFilter.matches (pf : PriceFilter) (x : ℚ) : Bool :=
  (match pf.gte with | some m => decide (m ≤ x) | none => true) &&
  (match pf.lte with | some m => decide (x ≤ m) | none => true)

/-- Evaluation of the whole query dictionary by the store: the conjunction
of its clauses, an absent clause imposing nothing. The `$regex`/`$options:
"i"` clause is modelled as case-insensitive literal substring match on the
title, and `variants.size` / `variants.color` as existential match over the
nested variant array. -/
def ProductQuery.matches (qr : ProductQuery) (d : CatalogDoc) : Bool :=
  (d.is_active == qr.is_active) &&
  (match qr.title_regex with
   | some pat => containsSeq (pat.toList.map Char.toLower)
       (d.title.toList.map Char.toLower)
   | none => true) &&
  (match qr.category with | some c => d.category == c | none => true) &&
  (match qr.price with | some pf => pf.matches d.price | none => true) &&
  (match qr.variants_size with
   | some s => d.variants.any (fun v => v.size == some s)
   | none => true) &&
  (match qr.variants_color with
   | some c => d.variants.any (fun v => v.color == some c)
   | none => true)

-- ---------------------------------------------------------------------------
-- main.py: GET /products/{product_id}
-- ---------------------------------------------------------------------------

/-- An `HTTPException(status_code, detail)`. -/
structure HErr where
  status : ℕ
  detail : String
  deriving DecidableEq, Repr

/-- Is `c` a hexadecimal digit? -/
def isHexDigit (c : Char) : Bool :=
  c.isDigit || ('a' ≤ c && c ≤ 'f') || ('A' ≤ c && c ≤ 'F')

/-- `bson.ObjectId(s)` succeeds on a string exactly when it is 24
hexadecimal characters. -/
def validObjectId (s : String) : Bool :=
  s.length = 24 && s.toList.all isHexDigit

/-- `GET /products/{product_id}` (main.py lines 130-140). The store is
`none` when `db is None`; otherwise it maps the canonical (lowercase)
24-hex-character id string to the stored document, mirroring
`db.product.find_one({"_id": ObjectId(product_id)})`. Note the `db is None`
check precedes id parsing and raises 404, not a 5xx error. -/
def get_product (Doc : Type) (db : Option (String → Option Doc))
    (product_id : String) : Except HErr Doc :=
  match db with
  | none => .error { status := 404, detail := "Not found" }
  | some find_one =>
    if validObjectId product_id then
      match find_one product_id.toLower with
      | none => .error { status := 404, detail := "Not found" }
      | some doc => .ok doc
    else
      .error { status := 400, detail := "Invalid id" }

-- ---------------------------------------------------------------------------
-- Claim-level predicates and fixtures
-- ---------------------------------------------------------------------------

instance {ε α : Type _} [DecidableEq ε] [DecidableEq α] :
    DecidableEq (Except ε α) := fun a b =>
  match a, b with
  | .ok x, .ok y =>
    if h : x = y then .isTrue (by rw [h])
    else .isFalse (fun hc => h (Except.ok.inj hc))
  | .error x, .error y =>
    if h : x = y then .isTrue (by rw [h])
    else .isFalse (fun hc => h (Except.error.inj hc))
  | .ok _, .error _ => .isFalse (fun hc => Except.noConfusion hc)
  | .error _, .ok _ => .isFalse (fun hc => Except.noConfusion hc)

/-- The spec's per-item total `price × quantity`, on the values the raw
item actually carries (defaults as in main.py line 197). -/
def itemTotalClaim (i : RawItem) : ℚ := i.price.getD 0 * i.quantity.getD 1

/-- An item satisfying the cart invariant of the claim: an integral
quantity ≥ 1 and a price ≥ 0, both present. -/
def claimValidItem (i : RawItem) : Bool :=
  (match i.quantity with
   | some q => q.den == 1 && decide (1 ≤ q)
   | none => false) &&
  (match i.price with
   | some pr => decide (0 ≤ pr)
   | none => false)

/-- An item violating the cart invariant in one of the ways the claim
names: quantity < 1, quantity not an integer, or price < 0. -/
def claimBadItem (i : RawItem) : Bool :=
  (match i.quantity with
   | some q => decide (q < 1) || q.den != 1
   | none => false) ||
  (match i.price with
   | some pr => decide (pr < 0)
   | none => false)

-- ---------------------------------------------------------------------------
-- Concrete fixtures for witnesses and counterexamples
-- ---------------------------------------------------------------------------

/-- A well-formed shipping address used by the concrete test payloads. -/
def addrFix : Address :=
  { full_name := "Ada Lovelace", line1 := "12 Cedar Way", city := "Austin",
    state := "TX", postal_code := "73301" }

/-- A stripe checkout payload with one valid item. -/
def payloadC1 : CheckoutPayload :=
  { items := [{ product_id := some "sku-1", quantity := some 1, price := some 10 }],
    shipping_address := addrFix, payment_method := "stripe" }

/-- An item with quantity 0, violating `quantity ≥ 1`. -/
def badItemC3 : RawItem :=
  { product_id := some "sku-9", quantity := some 0, price := some 5 }

/-- A payload mixing one valid and one invalid item. -/
def payloadC3 : CheckoutPayload :=
  { items := [{ product_id := some "sku-8", quantity := some 2, price := some 3 },
              badItemC3],
    shipping_address := addrFix, payment_method := "cod" }

/-- The spec's worked example: price 19.99 × 2 plus price 5.00 × 3. -/
def payloadC4 : CheckoutPayload :=
  { items := [{ product_id := some "sku-a", quantity := some 2, price := some (19.99 : ℚ) },
              { product_id := some "sku-b", quantity := some 3, price := some 5 }],
    shipping_address := addrFix, payment_method := "cod" }

/-- A checkout payload with an empty cart. -/
def payloadC5 : CheckoutPayload :=
  { items := [], shipping_address := addrFix, payment_method := "cod" }

/-- A stripe payload with one valid item. -/
def payloadC7s : CheckoutPayload :=
  { items := [{ product_id := some "sku-s", quantity := some 1, price := some 25 }],
    shipping_address := addrFix, payment_method := "stripe" }

/-- A cash-on-delivery payload with one valid item. -/
def payloadC7c : CheckoutPayload :=
  { items := [{ product_id := some "sku-c", quantity := some 1, price := some 25 }],
    shipping_address := addrFix, payment_method := "cod" }

/-- A payload whose raw subtotal 10.555 differs from its rounded total 10.56. -/
def payloadC10 : CheckoutPayload :=
  { items := [{ product_id := some "sku-t", quantity := some 1, price := some (10.555 : ℚ) }],
    shipping_address := addrFix, payment_method := "cod" }

/-- Catalog filter parameters supplying a free-text term and a minimum price. -/
def paramsC6 : ListParams := { q := some "shirt", min_price := some 10 }

/-- An active product document matching `paramsC6`. -/
def docC6 : CatalogDoc :=
  { title := "Blue T-Shirt", category := "tops", price := (19.99 : ℚ),
    variants := [{ size := some "M", color := some "blue" }], is_active := true }

/-- Catalog filter parameters supplying only a minimum price. -/
def paramsC8 : ListParams := { min_price := some 5 }

-- ---------------------------------------------------------------------------
-- Helper lemmas
-- ---------------------------------------------------------------------------

theorem int_tdiv_one (n : ℤ) : Int.tdiv n 1 = n := by
  cases n with
  | ofNat m => simp [Int.tdiv]
  | negSucc m => simp [Int.tdiv, Int.negSucc_eq]

theorem validateCartItem_ok_term {i : RawItem} {c : CartItem}
    (h : validateCartItem i = .ok c) :
    itemTerm i = c.price * (c.quantity : ℚ) := by
  simp only [validateCartItem] at h
  split at h
  · exact absurd h (by simp)
  · rename_i pid hpid
    split at h
    · exact absurd h (by simp)
    · rename_i q hq
      split at h
      · exact absurd h (by simp)
      · rename_i hden
        split at h
        · exact absurd h (by simp)
        · rename_i hnum
          split at h
          · exact absurd h (by simp)
          · rename_i pr hpr
            split at h
            · exact absurd h (by simp)
            · rename_i hpr0
              injection h with h
              subst h
              have hden1 : q.den = 1 := by
                by_contra hcon
                exact hden hcon
              simp [itemTerm, hq, hpr, pyInt, hden1, int_tdiv_one]

theorem validateItems_ok_sum {l : List RawItem} {cs : List CartItem}
    (h : validateItems l = .ok cs) :
    (l.map itemTerm).sum = (cs.map fun c => c.price * (c.quantity : ℚ)).sum := by
  induction l generalizing cs with
  | nil =>
    simp only [validateItems] at h
    cases h
    simp
  | cons i rest ih =>
    simp only [validateItems] at h
    split at h
    · exact absurd h (by simp)
    · rename_i c hc
      split at h
      · exact absurd h (by simp)
      · rename_i cs' hcs'
        injection h with h
        subst h
        simp [validateCartItem_ok_term hc, ih hcs']

theorem validateCartItem_bad {i : RawItem} (hbad : claimBadItem i = true) :
    ∃ e, validateCartItem i = .error e := by
  simp only [validateCartItem]
  cases hpid : i.product_id with
  | none => exact ⟨_, rfl⟩
  | some pid =>
    cases hq : i.quantity with
    | none => exact ⟨_, rfl⟩
    | some q =>
      by_cases hden : q.den = 1
      · by_cases hnum : q.num < 1
        · refine ⟨"quantity: must be >= 1", ?_⟩
          simp [hden, hnum]
        · cases hpr : i.price with
          | none =>
            refine ⟨"price: field required", ?_⟩
            simp [hden, hnum]
          | some pr =>
            have hq1 : ¬ q < 1 := by
              rw [Rat.lt_one_iff_num_lt_denom, hden]
              exact_mod_cast hnum
            have hprneg : pr < 0 := by
              simp only [claimBadItem, hq, hpr] at hbad
              simp only [Bool.or_eq_true, decide_eq_true_eq, bne_iff_ne] at hbad
              rcases hbad with (hb | hb) | hb
              · exact absurd hb hq1
              · exact absurd hden hb
              · exact hb
            refine ⟨"price: must be >= 0", ?_⟩
            simp [hden, hnum, hprneg]
      · refine ⟨"quantity: value is not a valid integer", ?_⟩
        simp [hden]

theorem validateItems_mem_bad {l : List RawItem} {i : RawItem}
    (hmem : i ∈ l) (hbad : ∃ e, validateCartItem i = .error e) :
    ∃ e, validateItems l = .error e := by
  induction l with
  | nil => cases hmem
  | cons j rest ih =>
    simp only [validateItems]
    rcases List.mem_cons.mp hmem with heq | hmem'
    · subst heq
      rcases hbad with ⟨e, he⟩
      rw [he]
      exact ⟨e, rfl⟩
    · cases hj : validateCartItem j with
      | error e => exact ⟨e, rfl⟩
      | ok c =>
        rcases ih hmem' with ⟨e, he⟩
        rw [he]
        exact ⟨e, rfl⟩

theorem mkOrder_ok_inv {u : Option String} {raw : List RawItem} {s sh t : ℚ}
    {pm : String} {a : Address} {em : Option String} {o : Order}
    (h : mkOrder u raw s sh t pm a em = .ok o) :
    validateItems raw = .ok o.items ∧ o.user_id = u ∧ o.subtotal = s ∧
    o.shipping = sh ∧ o.total = t ∧ o.status = OrderStatus.pending ∧
    o.payment_status = PaymentStatus.pending ∧ o.transaction_id = none ∧
    o.shipping_address = a ∧ o.email = em := by
  simp only [mkOrder] at h
  split at h
  · exact absurd h (by simp)
  · rename_i items hitems
    split at h
    · exact absurd h (by simp)
    · split at h
      · exact absurd h (by simp)
      · split at h
        · exact absurd h (by simp)
        · injection h with h
          subst h
          exact ⟨hitems, rfl, rfl, rfl, rfl, rfl, rfl, rfl, rfl, rfl⟩

theorem checkout_ok_inv {newId : String} {p : CheckoutPayload}
    {r : CheckoutResult} (h : checkout newId p = .ok r) :
    p.items.isEmpty = false ∧
    mkOrder none p.items ((p.items.map itemTerm).sum) 0
      (round2 ((p.items.map itemTerm).sum + 0)) p.payment_method
      p.shipping_address p.email = .ok r.order ∧
    r.order_id = newId ∧
    r.total = round2 ((p.items.map itemTerm).sum + 0) ∧
    r.payment = (if p.payment_method = "stripe" then
        { method := p.payment_method, status := "requires_action",
          client_secret := some ("cs_test_" ++ newId.take 8) }
      else
        { method := p.payment_method, status := "pending",
          client_secret := none }) := by
  simp only [checkout] at h
  split at h
  · exact absurd h (by simp)
  · rename_i hne
    split at h
    · exact absurd h (by simp)
    · rename_i order hmk
      injection h with h
      subst h
      exact ⟨Bool.not_eq_true _ ▸ hne, hmk, rfl, rfl, rfl⟩

theorem build_query_eq (p : ListParams) :
    build_query p = {
      is_active := true,
      title_regex := if pyTruthyStr p.q then p.q else none,
      category := if pyTruthyStr p.category then p.category else none,
      price := if p.min_price.isSome || p.max_price.isSome then
          some { gte := p.min_price, lte := p.max_price }
        else none,
      variants_size := if pyTruthyStr p.size then p.size else none,
      variants_color := if pyTruthyStr p.color then p.color else none } := by
  rcases p with ⟨q, cat, sz, col, minp, maxp⟩
  simp only [build_query]
  cases minp <;> cases maxp <;>
    by_cases h1 : pyTruthyStr q <;> by_cases h2 : pyTruthyStr cat <;>
    by_cases h3 : pyTruthyStr sz <;> by_cases h4 : pyTruthyStr col <;>
    simp [h1, h2, h3, h4]

theorem itemTerm_eq_claim {i : RawItem} (h : claimValidItem i = true) :
    itemTerm i = itemTotalClaim i := by
  simp only [claimValidItem, Bool.and_eq_true] at h
  obtain ⟨h1, h2⟩ := h
  cases hq : i.quantity with
  | none => rw [hq] at h1; simp at h1
  | some q =>
    rw [hq] at h1
    simp only [Bool.and_eq_true, beq_iff_eq, decide_eq_true_eq] at h1
    obtain ⟨hden, -⟩ := h1
    cases hpr : i.price with
    | none => rw [hpr] at h2; simp at h2
    | some pr =>
      simp [itemTerm, itemTotalClaim, hq, hpr, pyInt, hden, int_tdiv_one,
        (Rat.den_eq_one_iff q).mp hden]

theorem exceptHolds_mono {α ε : Type _} {P Q : α → Prop} (h : ∀ a, P a → Q a) :
    ∀ {e : Except ε α}, ExceptHolds P e → ExceptHolds Q e := by
  intro e hp
  cases e with
  | error _ => trivial
  | ok a => exact h a hp

theorem pyTruthyStr_none : pyTruthyStr none = false := rfl

theorem pyTruthyStr_empty : pyTruthyStr (some "") = false := by decide

theorem truthy_clause_iff (o : Option String) :
    (if pyTruthyStr o then o else none).isSome = true ↔
      ∃ s, o = some s ∧ s ≠ "" := by
  cases o with
  | none => simp [pyTruthyStr]
  | some s =>
    by_cases hs : s.isEmpty = true
    · have hempty : s = "" := (String.isEmpty_iff s).mp hs
      subst hempty
      simp [pyTruthyStr_empty]
    · simp only [Bool.not_eq_true] at hs
      have hne : s ≠ "" := by
        intro hc
        rw [hc] at hs
        exact absurd hs (by decide)
      simp [pyTruthyStr, hs, hne]

-- ---------------------------------------------------------------------------
-- Claims
-- ---------------------------------------------------------------------------

/-- C1, counterexample: a successful stripe checkout persists an order whose
`payment_status` is `pending`, not `requires_action`, because `checkout`
never passes `payment_status` to the `Order` constructor and the schema
default is `pending`. -/
theorem stripe_checkout_writes_pending_payment_status :
    payloadC1.payment_method = "stripe" ∧
    (ordersWritten "65a1b2c3d4e5f60718293a4b" payloadC1).map Order.payment_status =
      [PaymentStatus.pending] ∧
    PaymentStatus.pending ≠ PaymentStatus.requires_action :=
  ⟨rfl, by decide, by decide⟩

/-- C1, amended: every order persisted by the checkout pipeline has
`status = pending` and `payment_status = pending`, for both payment
methods; the `requires_action` state appears only in the response's
payment stub, never on the persisted order. -/
theorem checkout_order_initial_status (newId : String) (p : CheckoutPayload) :
    ExceptHolds (fun r => r.order.status = OrderStatus.pending ∧
      r.order.payment_status = PaymentStatus.pending) (checkout newId p) := by
  cases hres : checkout newId p with
  | error e => trivial
  | ok r =>
    have hord := mkOrder_ok_inv (checkout_ok_inv hres).2.1
    exact ⟨hord.2.2.2.2.2.1, hord.2.2.2.2.2.2.1⟩

/-- C1, witness: the amended statement applied to a concrete successful
stripe checkout. -/
theorem checkout_order_initial_status_witness :
    ExceptHolds (fun r => r.order.status = OrderStatus.pending ∧
      r.order.payment_status = PaymentStatus.pending)
      (checkout "65a1b2c3d4e5f60718293a4b" payloadC1) ∧
    (checkout "65a1b2c3d4e5f60718293a4b" payloadC1).toOption.isSome = true :=
  ⟨checkout_order_initial_status "65a1b2c3d4e5f60718293a4b" payloadC1, by decide⟩

/-- C2, counterexample: with the store unavailable (`db is None`),
`get_product` answers exactly the same `404 Not found` as a present store
with an absent document — not a distinct server error (404 is not a 5xx
status), so store-unavailable and not-found are conflated. -/
theorem get_product_unavailable_conflated_with_not_found :
    get_product Unit none "0123456789abcdef01234567" =
      get_product Unit (some fun _ => none) "0123456789abcdef01234567" ∧
    get_product Unit none "0123456789abcdef01234567" =
      .error { status := 404, detail := "Not found" } ∧
    404 < 500 :=
  ⟨by decide, rfl, by decide⟩

/-- C2, amended: with the store available, a well-formed but absent id
yields `404 Not found` and a malformed id yields `400 Invalid id`, and
these two are never conflated (404 ≠ 400); but a store-unavailable
condition yields the same `404 Not found` as an absent id rather than a
distinct server error. -/
theorem get_product_error_kinds (Doc : Type) (store : String → Option Doc)
    (pid : String) :
    (validObjectId pid = true → store pid.toLower = none →
      get_product Doc (some store) pid =
        .error { status := 404, detail := "Not found" }) ∧
    (validObjectId pid = false →
      get_product Doc (some store) pid =
        .error { status := 400, detail := "Invalid id" }) ∧
    (404 : ℕ) ≠ 400 ∧
    get_product Doc none pid = .error { status := 404, detail := "Not found" } := by
  refine ⟨?_, ?_, by decide, rfl⟩
  · intro hv hs
    simp [get_product, hv, hs]
  · intro hv
    simp [get_product, hv]

/-- C2, witness: the amended statement applied to a concrete empty store,
one well-formed id and one malformed id. -/
theorem get_product_error_kinds_witness :
    get_product Unit (some fun _ => none) "0123456789abcdef01234567" =
      .error { status := 404, detail := "Not found" } ∧
    get_product Unit (some fun _ => none) "not-an-objectid" =
      .error { status := 400, detail := "Invalid id" } ∧
    get_product Unit none "0123456789abcdef01234567" =
      .error { status := 404, detail := "Not found" } :=
  ⟨(get_product_error_kinds Unit (fun _ => none) "0123456789abcdef01234567").1
      (by decide) rfl,
   (get_product_error_kinds Unit (fun _ => none) "not-an-objectid").2.1 (by decide),
   (get_product_error_kinds Unit (fun _ => none) "0123456789abcdef01234567").2.2.2⟩

/-- C3: if any cart item has quantity < 1, a non-integral quantity, or
price < 0, the whole checkout is rejected with a pydantic
`ValidationError` (raised by the `Order` construction) and no order
document is written. -/
theorem checkout_rejects_invalid_item (newId : String) (p : CheckoutPayload)
    (i : RawItem) (hmem : i ∈ p.items) (hbad : claimBadItem i = true) :
    (∃ msg, checkout newId p = .error (CheckoutErr.validation msg)) ∧
    ordersWritten newId p = [] := by
  obtain ⟨e, he⟩ := validateItems_mem_bad hmem (validateCartItem_bad hbad)
  have hne : p.items.isEmpty = false := by
    cases hitems : p.items with
    | nil => rw [hitems] at hmem; cases hmem
    | cons a l => rfl
  have hmk : ∀ t : ℚ, mkOrder none p.items ((p.items.map itemTerm).sum) 0
      t p.payment_method p.shipping_address p.email = .error e := by
    intro t
    simp [mkOrder, he]
  have hck : checkout newId p = .error (CheckoutErr.validation e) := by
    simp [checkout, hne, hmk]
  exact ⟨⟨e, hck⟩, by simp [ordersWritten, hck]⟩

/-- C3, witness: a cart mixing one valid item with one quantity-0 item is
rejected whole, with no write. -/
theorem checkout_rejects_invalid_item_witness :
    ((∃ msg, checkout "64aa0011223344556677cafe" payloadC3 =
        .error (CheckoutErr.validation msg)) ∧
      ordersWritten "64aa0011223344556677cafe" payloadC3 = []) ∧
    badItemC3 ∈ payloadC3.items ∧ claimBadItem badItemC3 = true :=
  ⟨checkout_rejects_invalid_item "64aa0011223344556677cafe" payloadC3 badItemC3
      (by decide) (by decide),
   by decide, by decide⟩

/-- C4: when every item has an integral quantity ≥ 1 and a price ≥ 0, the
checkout's computed total equals `round(Σ price×quantity + shipping, 2)`
with shipping always 0. -/
theorem checkout_total_formula (newId : String) (p : CheckoutPayload)
    (hval : ∀ i ∈ p.items, claimValidItem i = true) :
    ExceptHolds (fun r => r.order.shipping = 0 ∧
      r.total = round2 ((p.items.map itemTotalClaim).sum + r.order.shipping))
      (checkout newId p) := by
  cases hres : checkout newId p with
  | error e => trivial
  | ok r =>
    have hinv := checkout_ok_inv hres
    have hord := mkOrder_ok_inv hinv.2.1
    have hship : r.order.shipping = 0 := hord.2.2.2.1
    have hmap : p.items.map itemTerm = p.items.map itemTotalClaim :=
      List.map_congr_left (fun i hi => itemTerm_eq_claim (hval i hi))
    refine ⟨hship, ?_⟩
    rw [hinv.2.2.2.1, hship, hmap]

/-- C4, witness: the spec's example — items 19.99 × 2 and 5.00 × 3 give
subtotal 54.98 and total 54.98. -/
theorem checkout_total_formula_witness :
    ExceptHolds (fun r => r.order.shipping = 0 ∧
      r.total = round2 ((payloadC4.items.map itemTotalClaim).sum + r.order.shipping))
      (checkout "64ff00aa11bb22cc33dd44ee" payloadC4) ∧
    (checkout "64ff00aa11bb22cc33dd44ee" payloadC4).map (fun r => r.total) =
      .ok ((5498 : ℚ) / 100) ∧
    (payloadC4.items.map itemTotalClaim).sum = (5498 : ℚ) / 100 :=
  ⟨checkout_total_formula "64ff00aa11bb22cc33dd44ee" payloadC4 (by decide),
   by decide, by decide⟩

/-- C5: checkout with an empty item list fails with the 400 "No items"
`HTTPException` and writes nothing. -/
theorem checkout_empty_cart_rejected (newId : String) (p : CheckoutPayload)
    (h : p.items = []) :
    checkout newId p = .error (CheckoutErr.http 400 "No items") ∧
    ordersWritten newId p = [] := by
  have hck : checkout newId p = .error (CheckoutErr.http 400 "No items") := by
    simp [checkout, h]
  exact ⟨hck, by simp [ordersWritten, hck]⟩

/-- C5, witness: the empty-cart payload is rejected with no write. -/
theorem checkout_empty_cart_rejected_witness :
    checkout "64aa00112233445566770000" payloadC5 =
      .error (CheckoutErr.http 400 "No items") ∧
    ordersWritten "64aa00112233445566770000" payloadC5 = [] :=
  checkout_empty_cart_rejected "64aa00112233445566770000" payloadC5 rfl

/-- C6, counterexample: supplying the free-text term as the empty string
(a supplied parameter) produces no title clause, so a clause is not
included "exactly when the parameter was supplied". -/
theorem build_query_empty_string_clause_omitted :
    (build_query { q := some "" }).title_regex = none ∧
    (some "" : Option String).isSome = true :=
  ⟨rfl, rfl⟩

/-- C6, amended: the query always contains the active-products-only
clause; a string filter's clause is present exactly when that parameter
was supplied with a non-empty string, the price clause exactly when at
least one bound was supplied; the clauses combine by conjunction, so any
matching document is active. -/
theorem build_query_clause_presence (p : ListParams) :
    (build_query p).is_active = true ∧
    ((build_query p).title_regex.isSome = true ↔ ∃ s, p.q = some s ∧ s ≠ "") ∧
    ((build_query p).category.isSome = true ↔ ∃ s, p.category = some s ∧ s ≠ "") ∧
    ((build_query p).variants_size.isSome = true ↔ ∃ s, p.size = some s ∧ s ≠ "") ∧
    ((build_query p).variants_color.isSome = true ↔ ∃ s, p.color = some s ∧ s ≠ "") ∧
    ((build_query p).price.isSome = true ↔
      (p.min_price.isSome = true ∨ p.max_price.isSome = true)) ∧
    (∀ d : CatalogDoc, (build_query p).matches d = true → d.is_active = true) := by
  rw [build_query_eq]
  refine ⟨rfl, truthy_clause_iff p.q, truthy_clause_iff p.category,
    truthy_clause_iff p.size, truthy_clause_iff p.color, ?_, ?_⟩
  · cases p.min_price <;> cases p.max_price <;> simp
  · intro d h
    simp only [ProductQuery.matches, Bool.and_eq_true, beq_iff_eq] at h
    exact h.1.1.1.1.1

/-- C6, witness: the amended statement applied to concrete parameters and
a concrete matching document. -/
theorem build_query_clause_presence_witness :
    (build_query paramsC6).is_active = true ∧
    ((build_query paramsC6).title_regex.isSome = true ↔
      ∃ s, paramsC6.q = some s ∧ s ≠ "") ∧
    docC6.is_active = true :=
  ⟨(build_query_clause_presence paramsC6).1,
   (build_query_clause_presence paramsC6).2.1,
   (build_query_clause_presence paramsC6).2.2.2.2.2.2 docC6 (by decide)⟩

/-- C7: on a successful checkout, the payment stub for stripe has status
"requires_action" and a non-empty client secret that is the literal
"cs_test_" followed by the first 8 characters of the new order's public
identifier; for cod it has status "pending" and no client-secret field. -/
theorem checkout_payment_stub_shape (newId : String) (p : CheckoutPayload) :
    ExceptHolds (fun r =>
      (p.payment_method = "stripe" →
        r.payment.status = "requires_action" ∧
        r.payment.client_secret = some ("cs_test_" ++ r.order_id.take 8) ∧
        r.payment.client_secret ≠ some "") ∧
      (p.payment_method = "cod" →
        r.payment.status = "pending" ∧ r.payment.client_secret = none))
      (checkout newId p) := by
  cases hres : checkout newId p with
  | error e => trivial
  | ok r =>
    obtain ⟨-, -, hid, -, hpay⟩ := checkout_ok_inv hres
    constructor
    · intro hs
      rw [hpay, if_pos hs, hid]
      refine ⟨rfl, rfl, ?_⟩
      intro hc
      have hlen := congrArg String.length (Option.some.inj hc)
      rw [String.length_append] at hlen
      have h1 : "cs_test_".length = 8 := rfl
      have h2 : "".length = 0 := rfl
      omega
    · intro hc
      have hns : ¬ p.payment_method = "stripe" := by
        rw [hc]; decide
      rw [hpay, if_neg hns]
      exact ⟨rfl, rfl⟩

/-- C7, witness: one concrete stripe checkout and one concrete cod
checkout, both succeeding. -/
theorem checkout_payment_stub_shape_witness :
    ExceptHolds (fun r => r.payment.status = "requires_action" ∧
        r.payment.client_secret = some ("cs_test_" ++ r.order_id.take 8))
      (checkout "65a1b2c3d4e5f60718293a4b" payloadC7s) ∧
    ExceptHolds (fun r => r.payment.status = "pending" ∧
        r.payment.client_secret = none)
      (checkout "65a1b2c3d4e5f60718293a4b" payloadC7c) ∧
    (checkout "65a1b2c3d4e5f60718293a4b" payloadC7s).toOption.isSome = true ∧
    (checkout "65a1b2c3d4e5f60718293a4b" payloadC7c).toOption.isSome = true :=
  ⟨exceptHolds_mono (fun r h => ⟨(h.1 rfl).1, (h.1 rfl).2.1⟩)
      (checkout_payment_stub_shape "65a1b2c3d4e5f60718293a4b" payloadC7s),
   exceptHolds_mono (fun r h => h.2 rfl)
      (checkout_payment_stub_shape "65a1b2c3d4e5f60718293a4b" payloadC7c),
   by decide, by decide⟩

/-- C8: min and max price compose into a single range clause — omitted
when neither bound is supplied, otherwise carrying exactly the supplied
bounds, with `$gte` lower-inclusive and `$lte` upper-inclusive. -/
theorem build_query_price_range (p : ListParams) :
    ((p.min_price = none ∧ p.max_price = none) → (build_query p).price = none) ∧
    ((p.min_price ≠ none ∨ p.max_price ≠ none) →
      (build_query p).price = some { gte := p.min_price, lte := p.max_price }) ∧
    (∀ x : ℚ,
      PriceFilter.matches { gte := p.min_price, lte := p.max_price } x = true ↔
        ((∀ m, p.min_price = some m → m ≤ x) ∧
         (∀ m, p.max_price = some m → x ≤ m))) := by
  rw [build_query_eq]
  cases p.min_price <;> cases p.max_price <;>
    simp [PriceFilter.matches]

/-- C8, witness: supplying only a minimum price yields a half-open,
lower-inclusive range clause. -/
theorem build_query_price_range_witness :
    (build_query paramsC8).price = some { gte := some 5, lte := none } ∧
    PriceFilter.matches { gte := (some 5 : Option ℚ), lte := none } 5 = true ∧
    PriceFilter.matches { gte := (some 5 : Option ℚ), lte := none } 4 = false :=
  ⟨(build_query_price_range paramsC8).2.1 (Or.inl (by decide)),
   by decide, by decide⟩

/-- C9: an empty-string free-text term, category, size, or color behaves
exactly as an absent parameter, while a supplied price bound of 0 does
add the corresponding inclusive bound to the range clause. -/
theorem build_query_falsy_semantics (p : ListParams) :
    build_query { p with q := some "" } = build_query { p with q := none } ∧
    build_query { p with category := some "" } =
      build_query { p with category := none } ∧
    build_query { p with size := some "" } = build_query { p with size := none } ∧
    build_query { p with color := some "" } = build_query { p with color := none } ∧
    (build_query { p with min_price := some 0 }).price =
      some { gte := some 0, lte := p.max_price } ∧
    (build_query { p with max_price := some 0 }).price =
      some { gte := p.min_price, lte := some 0 } := by
  refine ⟨?_, ?_, ?_, ?_, ?_, ?_⟩ <;>
    simp [build_query_eq, pyTruthyStr_none, pyTruthyStr_empty]

/-- C9, witness: the statement applied at the all-absent parameter set. -/
theorem build_query_falsy_semantics_witness :
    build_query { q := some "" } = build_query ({} : ListParams) ∧
    (build_query { min_price := some 0 }).price =
      some { gte := some 0, lte := none } :=
  ⟨(build_query_falsy_semantics {}).1,
   (build_query_falsy_semantics {}).2.2.2.2.1⟩

/-- C10: the persisted order's `subtotal` is the raw unrounded sum
`Σ price×quantity` (equal to the sum over the validated stored items),
only `total` is rounded to 2 decimal places, and the response's total
equals the persisted total. -/
theorem checkout_subtotal_raw_total_rounded (newId : String) (p : CheckoutPayload) :
    ExceptHolds (fun r =>
      r.order.subtotal = (p.items.map itemTerm).sum ∧
      r.order.subtotal = (r.order.items.map fun c => c.price * (c.quantity : ℚ)).sum ∧
      r.order.total = round2 (r.order.subtotal + r.order.shipping) ∧
      r.total = r.order.total)
      (checkout newId p) := by
  cases hres : checkout newId p with
  | error e => trivial
  | ok r =>
    have hinv := checkout_ok_inv hres
    have hord := mkOrder_ok_inv hinv.2.1
    have hsub : r.order.subtotal = (p.items.map itemTerm).sum := hord.2.2.1
    refine ⟨hsub, ?_, ?_, ?_⟩
    · rw [hsub, validateItems_ok_sum hord.1]
    · rw [hord.2.2.2.2.1, hsub, hord.2.2.2.1]
    · rw [hinv.2.2.2.1, hord.2.2.2.2.1]

/-- C10, witness: a cart priced 10.555 persists subtotal 10.555 but total
10.56, and the response carries the rounded total. -/
theorem checkout_subtotal_raw_total_rounded_witness :
    ExceptHolds (fun r =>
      r.order.subtotal = (payloadC10.items.map itemTerm).sum ∧
      r.order.subtotal = (r.order.items.map fun c => c.price * (c.quantity : ℚ)).sum ∧
      r.order.total = round2 (r.order.subtotal + r.order.shipping) ∧
      r.total = r.order.total)
      (checkout "64ee11ff223344556677aabb" payloadC10) ∧
    (checkout "64ee11ff223344556677aabb" payloadC10).map
      (fun r => (r.order.subtotal, r.order.total)) =
      .ok ((10.555 : ℚ), (10.56 : ℚ)) ∧
    (10.555 : ℚ) ≠ (10.56 : ℚ) :=
  ⟨checkout_subtotal_raw_total_rounded "64ee11ff223344556677aabb" payloadC10,
   by decide, by decide⟩

end FashionCommerce
